import Mathlib

/-!
Shallow embedding of the saireebot group-moderation bot.

Strings are modelled as lists of characters, so that the JavaScript
string operations used by the program (trim, split on a single space,
toLowerCase, includes, substring, startsWith) become structurally
recursive functions amenable to proof.  The Postgres-backed settings
store is an association list from group id to the settings record;
the process-wide pendingVerifications object is an association list
from user id to its entry.  Calls to the messaging gateway (reply,
push, kick, profile lookup) are recorded as a list of actions, and the
fallibility of gateway calls is captured by an environment record.
-/

/-- Program strings, modelled as lists of characters. -/
abbrev Str := List Char

/-- Coerce a Lean string literal into the model representation. -/
def str (s : String) : Str := s.data

/-- Render a natural number, as JavaScript template interpolation does. -/
def natStr (n : Nat) : Str := (Nat.repr n).data

/-- The whitespace test used by trim. -/
def isWS (c : Char) : Bool := c.isWhitespace

/-- JavaScript String.prototype.trim: drop whitespace from both ends. -/
def trim (s : Str) : Str :=
  ((s.dropWhile isWS).reverse.dropWhile isWS).reverse

/-- JavaScript String.prototype.toLowerCase, on the ASCII fragment used. -/
def toLowerCase (s : Str) : Str := s.map Char.toLower

/-- JavaScript str.split(' '): split on each single space character;
n space characters yield n+1 (possibly empty) parts. -/
def splitSp : Str → List Str
  | [] => [[]]
  | c :: t =>
    if c = ' ' then [] :: splitSp t
    else
      match splitSp t with
      | [] => [[c]]
      | h :: r => (c :: h) :: r

/-- JavaScript str.includes(needle): substring containment. -/
def includes (hay needle : Str) : Bool := decide (needle <:+: hay)

/-- JavaScript str.startsWith on the one-character pattern used by the
dispatcher. -/
def startsWithChar (c : Char) (s : Str) : Bool :=
  match s with
  | [] => false
  | d :: _ => decide (d = c)

/-- The MAX_REPLY_LENGTH constant of index.js. -/
def MAX_REPLY_LENGTH : Nat := 4800

/-- The DEFAULT_PASSWORD_TIMEOUT_MINUTES constant of index.js. -/
def DEFAULT_PASSWORD_TIMEOUT_MINUTES : Nat := 2

/-- One row of the group_settings table, as read back by db.js's
getGroupSettings (array columns already defaulted to empty lists). -/
structure GroupSettings where
  admins : List Str
  password : Option Str
  password_timeout_minutes : Option Nat
  blacklist_words : List Str
  blacklist_users : List Str
deriving DecidableEq, Repr

/-- The row the database DEFAULTs produce on lazy insert. -/
def defaultSettings : GroupSettings :=
  { admins := []
    password := none
    password_timeout_minutes := some DEFAULT_PASSWORD_TIMEOUT_MINUTES
    blacklist_words := []
    blacklist_users := [] }

/-- The group_settings table: association list keyed by group id. -/
abbrev SettingsStore := List (Str × GroupSettings)

/-- db.getGroupSettings: fetch the row for the group, inserting the
default row when the group has no row yet; returns the settings read
together with the (possibly grown) store. -/
def getGroupSettings (store : SettingsStore) (gid : Str) :
    GroupSettings × SettingsStore :=
  match store.lookup gid with
  | some s => (s, store)
  | none => (defaultSettings, (gid, defaultSettings) :: store)

/-- An SQL UPDATE of one field WHERE group_id matches: a no-op when the
row is absent. -/
def storeUpdate (store : SettingsStore) (gid : Str)
    (f : GroupSettings → GroupSettings) : SettingsStore :=
  store.map (fun p => if p.1 = gid then (p.1, f p.2) else p)

/-- db.setPassword: UPDATE the password column (null clears it). -/
def setPassword (store : SettingsStore) (gid : Str) (password : Option Str) :
    SettingsStore :=
  storeUpdate store gid (fun s => { s with password := password })

/-- db.setPasswordTimeout: UPDATE the password_timeout_minutes column. -/
def setPasswordTimeout (store : SettingsStore) (gid : Str) (minutes : Nat) :
    SettingsStore :=
  storeUpdate store gid (fun s => { s with password_timeout_minutes := some minutes })

/-- db.isAdmin: read the settings (possibly creating the row) and test
membership of the admins column. -/
def isAdmin (store : SettingsStore) (gid uid : Str) : Bool × SettingsStore :=
  let (s, store') := getGroupSettings store gid
  (s.admins.contains uid, store')

/-- Insertion-ordered set insertion, as JavaScript Set followed by
Array.from produces. -/
def setInsert (l : List Str) (x : Str) : List Str :=
  if l.contains x then l else l ++ [x]

/-- db.addAdmin: read the settings, add the user to the admin set, and
UPDATE the admins column with the resulting list. -/
def addAdmin (store : SettingsStore) (gid uid : Str) : SettingsStore :=
  let (s, store₁) := getGroupSettings store gid
  storeUpdate store₁ gid (fun t => { t with admins := setInsert s.admins uid })

/-- db.addBlacklistWords: each word is lowercased before insertion into
the word set; the blacklist_words column is overwritten. -/
def addBlacklistWords (store : SettingsStore) (gid : Str) (words : List Str) :
    SettingsStore :=
  let (s, store₁) := getGroupSettings store gid
  let newList := words.foldl (fun acc w => setInsert acc (toLowerCase w)) s.blacklist_words
  storeUpdate store₁ gid (fun t => { t with blacklist_words := newList })

/-- db.removeBlacklistWords: filter out every word whose lowercasing was
requested for removal. -/
def removeBlacklistWords (store : SettingsStore) (gid : Str) (words : List Str) :
    SettingsStore :=
  let (s, store₁) := getGroupSettings store gid
  let lowered := words.map toLowerCase
  let newList := s.blacklist_words.filter (fun w => !lowered.contains w)
  storeUpdate store₁ gid (fun t => { t with blacklist_words := newList })

/-- db.isUserBlacklisted: read the settings and test membership of the
blacklist_users column. -/
def isUserBlacklisted (store : SettingsStore) (gid uid : Str) :
    Bool × SettingsStore :=
  let (s, store') := getGroupSettings store gid
  (s.blacklist_users.contains uid, store')

/-- db.addUserToBlacklist: read the settings, add the user to the set,
and UPDATE the blacklist_users column. -/
def addUserToBlacklist (store : SettingsStore) (gid uid : Str) : SettingsStore :=
  let (s, store₁) := getGroupSettings store gid
  storeUpdate store₁ gid (fun t => { t with blacklist_users := setInsert s.blacklist_users uid })

/-- db.removeUserFromBlacklist: filter the user out of the set and
UPDATE the blacklist_users column. -/
def removeUserFromBlacklist (store : SettingsStore) (gid uid : Str) : SettingsStore :=
  let (s, store₁) := getGroupSettings store gid
  let newList := s.blacklist_users.filter (fun u => u ≠ uid)
  storeUpdate store₁ gid (fun t => { t with blacklist_users := newList })

/-- Outcomes of messaging-gateway calls that can fail, plus whether a
kick succeeds, supplied as an oracle environment. getGroupMemberProfile
and getProfile return none when the platform call would reject. -/
structure GatewayEnv where
  memberProfile : Str → Str → Option Str
  userProfile : Str → Option Str
  kickSucceeds : Str → Str → Bool

/-- One observable call to the messaging gateway or the console. -/
inductive Act where
  | reply (replyToken : Str) (text : Str)
  | push (userId : Str) (text : Str)
  | kickAttempt (groupId : Str) (userId : Str) (reason : Str)
  | log (text : Str)
deriving DecidableEq, Repr

/-- One pendingVerifications entry: the group to authenticate against
and the handle of the scheduled expiry timeout. -/
structure PendingEntry where
  groupId : Str
  timeoutId : Nat
deriving DecidableEq, Repr

/-- The mutable process state: the settings table and the process-wide
pendingVerifications object (with a counter minting timer handles). -/
structure BotState where
  store : SettingsStore
  pending : List (Str × PendingEntry)
  nextTimer : Nat
deriving DecidableEq, Repr

/-- JavaScript property assignment on the pendingVerifications object. -/
def pendingSet (p : List (Str × PendingEntry)) (uid : Str) (e : PendingEntry) :
    List (Str × PendingEntry) :=
  (uid, e) :: p.filter (fun q => q.1 ≠ uid)

/-- JavaScript delete pendingVerifications[uid]. -/
def pendingDelete (p : List (Str × PendingEntry)) (uid : Str) :
    List (Str × PendingEntry) :=
  p.filter (fun q => q.1 ≠ uid)

/-- JavaScript a || d for an optional numeric column: 0 and null are
both falsy and fall back to the default. -/
def jsOrNat : Option Nat → Nat → Nat
  | some n, d => if n = 0 then d else n
  | none, d => d

/-- kickUser: log, call kickGroupMember, and swallow any failure with an
error log. The function itself never throws. -/
def kickUser (env : GatewayEnv) (gid uid reason : Str) : List Act :=
  if env.kickSucceeds gid uid then
    [Act.kickAttempt gid uid reason]
  else
    [Act.kickAttempt gid uid reason,
     Act.log (str "Failed to kick user " ++ uid)]

/-- An inbound message payload: text (with its optional mention block,
abstracted to the mentioned user ids) or any non-text message type. -/
inductive Message where
  | text (body : Str) (mention : Option (List Str))
  | nonText
deriving DecidableEq, Repr

/-- mention ? mention.mentionees[0] : null. -/
def firstMentionee (mention : Option (List Str)) : Option Str :=
  mention.bind List.head?

/-- The command token of line 85 of index.js: first split part of the
trimmed text, lowercased. -/
def parsedCommand (body : Str) : Str :=
  toLowerCase (splitSp (trim body)).headI

/-- The argument list of line 86 of index.js: all split parts after the
first. -/
def parsedArgs (body : Str) : List Str :=
  (splitSp (trim body)).tail

/-- handleSetAdmin (lines 205-224): bootstrap the first admin when the
admin set is empty; otherwise only an existing admin may add a
mentioned target. -/
def handleSetAdmin (st : BotState) (gid senderId replyToken : Str)
    (mention : Option (List Str)) : BotState × List Act :=
  let (settings, store₁) := getGroupSettings st.store gid
  if settings.admins = [] then
    let store₂ := addAdmin store₁ gid senderId
    ({ st with store := store₂ },
     [Act.reply replyToken (str "You are now the first admin.")])
  else
    let (adm, store₂) := isAdmin store₁ gid senderId
    if adm then
      match firstMentionee mention with
      | none =>
        ({ st with store := store₂ },
         [Act.reply replyToken (str "Usage: !setadmin @username")])
      | some target =>
        let (tAdm, store₃) := isAdmin store₂ gid target
        if tAdm then
          ({ st with store := store₃ },
           [Act.reply replyToken (str "This user is already an admin.")])
        else
          ({ st with store := addAdmin store₃ gid target },
           [Act.reply replyToken (str "New admin added.")])
    else
      ({ st with store := store₂ }, [])

/-- handleSetPassword (lines 176-190): off (case-insensitively) clears
the password, any other first argument becomes the password verbatim. -/
def handleSetPassword (st : BotState) (gid replyToken : Str) (args : List Str) :
    BotState × List Act :=
  match args with
  | [] =>
    (st, [Act.reply replyToken (str "Usage: !setpassword [new_password|off]")])
  | newPassword :: _ =>
    if toLowerCase newPassword = str "off" then
      ({ st with store := setPassword st.store gid none },
       [Act.reply replyToken (str "Password protection has been disabled.")])
    else
      ({ st with store := setPassword st.store gid (some newPassword) },
       [Act.reply replyToken
         (str "The group password has been set to: " ++ newPassword)])

/-- JavaScript parseInt(s, 10): an optional sign followed by leading
decimal digits; anything else is NaN (none). -/
def parseIntJS (s : Str) : Option Int :=
  match s with
  | [] => none
  | c :: t =>
    if c = '-' then
      let ds := t.takeWhile Char.isDigit
      if ds = [] then none
      else some (-(Int.ofNat (ds.foldl (fun a d => a * 10 + (d.toNat - 48)) 0)))
    else
      let ds := (c :: t).takeWhile Char.isDigit
      if ds = [] then none
      else some (Int.ofNat (ds.foldl (fun a d => a * 10 + (d.toNat - 48)) 0))

/-- handleSetPasswordTimeout (lines 192-203). -/
def handleSetPasswordTimeout (st : BotState) (gid replyToken : Str)
    (args : List Str) : BotState × List Act :=
  match args with
  | [] =>
    (st, [Act.reply replyToken (str "Usage: !setpasswordtimeout [minutes]")])
  | a :: _ =>
    match parseIntJS a with
    | none =>
      (st, [Act.reply replyToken (str "Please provide a valid number of minutes.")])
    | some m =>
      if m ≤ 0 then
        (st, [Act.reply replyToken (str "Please provide a valid number of minutes.")])
      else
        ({ st with store := setPasswordTimeout st.store gid m.toNat },
         [Act.reply replyToken
           (str "Password timeout has been set to " ++ natStr m.toNat
             ++ str " minute(s).")])

/-- handleAddBlacklistWords (lines 154-163). -/
def handleAddBlacklistWords (st : BotState) (gid replyToken : Str)
    (args : List Str) : BotState × List Act :=
  match args with
  | [] =>
    (st, [Act.reply replyToken (str "Usage: !addblacklist [word]...")])
  | _ =>
    ({ st with store := addBlacklistWords st.store gid args },
     [Act.reply replyToken
       (str "Added " ++ natStr args.length ++ str " word(s) to blacklist.")])

/-- handleRemoveBlacklistWords (lines 165-174). -/
def handleRemoveBlacklistWords (st : BotState) (gid replyToken : Str)
    (args : List Str) : BotState × List Act :=
  match args with
  | [] =>
    (st, [Act.reply replyToken (str "Usage: !removeblacklist [word]...")])
  | _ =>
    ({ st with store := removeBlacklistWords st.store gid args },
     [Act.reply replyToken
       (str "Removed " ++ natStr args.length ++ str " word(s) from blacklist.")])

/-- handleBlacklistUser (lines 242-256): the blacklist-store mutation
happens first; a failing getGroupMemberProfile lookup then jumps to the
catch block, producing the degraded reply, while the store mutation
stands. kickUser itself swallows kick failures, so a failed kick after
a successful profile lookup still reaches the full-success reply. -/
def handleBlacklistUser (env : GatewayEnv) (st : BotState)
    (gid replyToken : Str) (mention : Option (List Str)) :
    BotState × List Act :=
  match firstMentionee mention with
  | none =>
    (st, [Act.reply replyToken (str "Usage: !blacklistuser @username")])
  | some target =>
    let (adm, store₁) := isAdmin st.store gid target
    if adm then
      ({ st with store := store₁ },
       [Act.reply replyToken (str "You cannot blacklist an admin.")])
    else
      let store₂ := addUserToBlacklist store₁ gid target
      let st₂ := { st with store := store₂ }
      match env.memberProfile gid target with
      | none =>
        (st₂, [Act.reply replyToken
          (str "User ID added to blacklist, but could not be removed from group (may have already left).")])
      | some displayName =>
        (st₂, kickUser env gid target (str "User has been blacklisted.")
          ++ [Act.reply replyToken
               (displayName ++ str " has been blacklisted and removed.")])

/-- handleUnblacklistUser (lines 258-270): getProfile failures are
caught inline and fall back to a generic name. -/
def handleUnblacklistUser (env : GatewayEnv) (st : BotState)
    (gid replyToken : Str) (mention : Option (List Str)) :
    BotState × List Act :=
  match firstMentionee mention with
  | none =>
    (st, [Act.reply replyToken (str "Usage: !unblacklistuser @username")])
  | some target =>
    let store₁ := removeUserFromBlacklist st.store gid target
    let name :=
      match env.userProfile target with
      | some n => n
      | none => str "The user"
    ({ st with store := store₁ },
     [Act.reply replyToken (name ++ str " has been unblacklisted.")])

/-- handleStatusCommand (lines 272-289). -/
def handleStatusCommand (st : BotState) (gid replyToken : Str) :
    BotState × List Act :=
  let (settings, store₁) := getGroupSettings st.store gid
  let timeout := jsOrNat settings.password_timeout_minutes DEFAULT_PASSWORD_TIMEOUT_MINUTES
  let passwordStatus :=
    match settings.password with
    | some _ => str "Enabled (Timeout: " ++ natStr timeout ++ str "m)"
    | none => str "Disabled"
  let statusText :=
    str "--- Group Status Overview ---" ++ [Char.ofNat 10]
      ++ str "Password Protection: " ++ passwordStatus ++ [Char.ofNat 10]
      ++ str "Admins: " ++ natStr settings.admins.length ++ [Char.ofNat 10]
      ++ str "Blacklisted Words: " ++ natStr settings.blacklist_words.length ++ [Char.ofNat 10]
      ++ str "Blacklisted Users: " ++ natStr settings.blacklist_users.length
  ({ st with store := store₁ }, [Act.reply replyToken statusText])

/-- handleShowBlacklistWords (lines 291-301): join with a separator,
truncate to MAX_REPLY_LENGTH characters and append an ellipsis when the
join exceeds that length. -/
def handleShowBlacklistWords (st : BotState) (gid replyToken : Str) :
    BotState × List Act :=
  let (settings, store₁) := getGroupSettings st.store gid
  let list₀ :=
    if settings.blacklist_words.length > 0 then
      List.intercalate (str ", ") settings.blacklist_words
    else str "None"
  let list :=
    if list₀.length > MAX_REPLY_LENGTH then
      list₀.take MAX_REPLY_LENGTH ++ str "..."
    else list₀
  ({ st with store := store₁ },
   [Act.reply replyToken
     (str "--- Blacklisted Words (" ++ natStr settings.blacklist_words.length
       ++ str ") ---" ++ [Char.ofNat 10] ++ list)])

/-- The per-entry rendering of the blacklist-user listing: getProfile
with an inline catch producing a placeholder naming the raw id. -/
def renderBlacklistUserName (env : GatewayEnv) (id : Str) : Str :=
  match env.userProfile id with
  | some n => n
  | none => str "Unknown (ID: " ++ id ++ str ")"

/-- handleShowBlacklistUsers (lines 303-317): per-user profile lookups
fall back to a placeholder naming the raw id; the joined listing is
truncated like the word listing. -/
def handleShowBlacklistUsers (env : GatewayEnv) (st : BotState)
    (gid replyToken : Str) : BotState × List Act :=
  let (settings, store₁) := getGroupSettings st.store gid
  let userListText :=
    if settings.blacklist_users.length > 0 then
      let names := settings.blacklist_users.map (renderBlacklistUserName env)
      let t := List.intercalate (str ", ") names
      if t.length > MAX_REPLY_LENGTH then t.take MAX_REPLY_LENGTH ++ str "..."
      else t
    else str "None"
  ({ st with store := store₁ },
   [Act.reply replyToken
     (str "--- Blacklisted Users (" ++ natStr settings.blacklist_users.length
       ++ str ") ---" ++ [Char.ofNat 10] ++ userListText)])

/-- handleHelpCommand (lines 226-240). -/
def handleHelpCommand (st : BotState) (replyToken : Str) :
    BotState × List Act :=
  (st, [Act.reply replyToken (str "--- Admin Commands ---
!help
!status
!setpassword [pass|off]
!setpasswordtimeout [mins]
!showblacklistwords
!showblacklistusers
!setadmin @user
!addblacklist [word]...
!removeblacklist [word]...
!blacklistuser @user
!unblacklistuser @user")])

/-- checkMessageForBlacklist (lines 341-347): admins are exempt; the
first stored word found as a substring of the lowercased text triggers
a kick whose reason names that word. -/
def checkMessageForBlacklist (env : GatewayEnv) (st : BotState)
    (gid uid text : Str) : BotState × List Act :=
  let (adm, store₁) := isAdmin st.store gid uid
  if adm then ({ st with store := store₁ }, [])
  else
    let (settings, store₂) := getGroupSettings store₁ gid
    let st₂ := { st with store := store₂ }
    match settings.blacklist_words.find? (fun w => includes (toLowerCase text) w) with
    | some w =>
      (st₂, kickUser env gid uid
        (str "Used blacklisted word: " ++ [Char.ofNat 39] ++ w ++ [Char.ofNat 39]))
    | none => (st₂, [])

/-- handlePasswordAttempt (lines 323-339): when no pendingVerifications
entry exists the function returns at once with no effect; otherwise the
timer is cleared and the entry deleted before the comparison, and the
text is compared for exact equality to the freshly fetched password. -/
def handlePasswordAttempt (env : GatewayEnv) (st : BotState)
    (userId : Str) (message : Message) (replyToken : Str) :
    BotState × List Act :=
  match st.pending.lookup userId with
  | none => (st, [])
  | some vd =>
    let (settings, store₁) := getGroupSettings st.store vd.groupId
    let st₁ := { st with store := store₁, pending := pendingDelete st.pending userId }
    match message with
    | Message.text body _ =>
      if some body = settings.password then
        (st₁, [Act.reply replyToken (str "Password accepted. Welcome!")])
      else
        (st₁, [Act.reply replyToken (str "Incorrect password.")]
          ++ kickUser env vd.groupId userId (str "Incorrect password provided."))
    | Message.nonText =>
      (st₁, [Act.reply replyToken (str "Incorrect password.")]
        ++ kickUser env vd.groupId userId (str "Incorrect password provided."))

/-- handleMemberJoined (lines 121-148): settings are read once; each
member is kicked when blacklisted, registered for verification with a
private prompt when a password is set, and admitted silently otherwise. -/
def handleMemberJoined (env : GatewayEnv) (st : BotState)
    (gid : Str) (members : List Str) : BotState × List Act :=
  let (settings, store₁) := getGroupSettings st.store gid
  members.foldl
    (fun acc member =>
      let (s, acts) := acc
      let (bl, store') := isUserBlacklisted s.store gid member
      let s := { s with store := store' }
      if bl then
        (s, acts ++ kickUser env gid member (str "A blacklisted user tried to join."))
      else
        match settings.password with
        | some _ =>
          let timeoutMinutes :=
            jsOrNat settings.password_timeout_minutes DEFAULT_PASSWORD_TIMEOUT_MINUTES
          let tid := s.nextTimer
          let s := { s with
            pending := pendingSet s.pending member ⟨gid, tid⟩
            nextTimer := tid + 1 }
          (s, acts ++ [Act.push member
            (str "Welcome! This group requires a password. Please reply with the password within "
              ++ natStr timeoutMinutes
              ++ str " minute(s) to stay in the group.")])
        | none => (s, acts))
    ({ st with store := store₁ }, [])

/-- handleMessage (lines 80-119): non-text messages are dropped at once;
a blacklisted sender is kicked before anything else; the trimmed text is
split on single spaces into a command token and arguments; !setadmin is
routed before the admin gate; all other commands require admin and are
otherwise silently ignored; non-command text goes to the word check. -/
def handleMessage (env : GatewayEnv) (st : BotState)
    (gid : Str) (message : Message) (uid replyToken : Str) :
    BotState × List Act :=
  match message with
  | Message.nonText => (st, [])
  | Message.text body mention =>
    let (bl, store₁) := isUserBlacklisted st.store gid uid
    let st₁ := { st with store := store₁ }
    if bl then
      (st₁, kickUser env gid uid (str "User is on the blacklist."))
    else
      let text := trim body
      let command := parsedCommand body
      let args := parsedArgs body
      if startsWithChar '!' command then
        if command = str "!setadmin" then
          handleSetAdmin st₁ gid uid replyToken mention
        else
          let (adm, store₂) := isAdmin st₁.store gid uid
          let st₂ := { st₁ with store := store₂ }
          if !adm then (st₂, [])
          else if command = str "!setpassword" then
            handleSetPassword st₂ gid replyToken args
          else if command = str "!setpasswordtimeout" then
            handleSetPasswordTimeout st₂ gid replyToken args
          else if command = str "!addblacklist" then
            handleAddBlacklistWords st₂ gid replyToken args
          else if command = str "!removeblacklist" then
            handleRemoveBlacklistWords st₂ gid replyToken args
          else if command = str "!blacklistuser" then
            handleBlacklistUser env st₂ gid replyToken mention
          else if command = str "!unblacklistuser" then
            handleUnblacklistUser env st₂ gid replyToken mention
          else if command = str "!status" then
            handleStatusCommand st₂ gid replyToken
          else if command = str "!showblacklistwords" then
            handleShowBlacklistWords st₂ gid replyToken
          else if command = str "!showblacklistusers" then
            handleShowBlacklistUsers env st₂ gid replyToken
          else if command = str "!help" then
            handleHelpCommand st₂ replyToken
          else
            (st₂, [Act.reply replyToken
              (str "Unknown command: " ++ command
                ++ str ". Use !help to see all available commands.")])
      else
        checkMessageForBlacklist env st₁ gid uid text

/-- The source of an inbound event. -/
inductive Source where
  | group (groupId userId : Str)
  | direct (userId : Str)
deriving DecidableEq, Repr

/-- An inbound webhook event. -/
inductive Event where
  | message (source : Source) (msg : Message) (replyToken : Str)
  | memberJoined (groupId : Str) (members : List Str)
  | memberLeft (groupId : Str) (members : List Str)
  | unfollow (userId : Str)
  | otherEvent (source : Source)
deriving DecidableEq, Repr

/-- handleEvent (lines 44-75): unfollow deletes any pending entry; a
direct message is routed to the password handler only when an entry
exists; group events dispatch by kind, with memberLeft log-only. -/
def handleEvent (env : GatewayEnv) (st : BotState) (e : Event) :
    BotState × List Act :=
  match e with
  | Event.unfollow uid =>
    ({ st with pending := pendingDelete st.pending uid }, [])
  | Event.message (Source.direct uid) msg rt =>
    match st.pending.lookup uid with
    | some _ => handlePasswordAttempt env st uid msg rt
    | none => (st, [])
  | Event.message (Source.group gid uid) msg rt =>
    handleMessage env st gid msg uid rt
  | Event.memberJoined gid members =>
    handleMemberJoined env st gid members
  | Event.memberLeft _ members =>
    (st, [Act.log (str "Member left: " ++ List.intercalate (str ", ") members)])
  | Event.otherEvent _ => (st, [])

/-- Modelled from the spec: the parsing the specification describes for
the Command Dispatcher, namely splitting the trimmed text on whitespace
into tokens, with no empty-string tokens arising from runs of
whitespace. Used only to compare against the parsing the code performs. -/
def specTokens (body : Str) : List Str :=
  ((trim body).splitOnP isWS).filter (fun t => t ≠ [])

/-- A gateway environment in which every call succeeds (profiles resolve
to a fixed name, kicks succeed). -/
def envOk : GatewayEnv :=
  { memberProfile := fun _ _ => some (str "Bob")
    userProfile := fun _ => some (str "Bob")
    kickSucceeds := fun _ _ => true }

/-- A gateway environment in which the profile lookup succeeds but the
kick call fails. -/
def envKickFail : GatewayEnv :=
  { memberProfile := fun _ _ => some (str "Bob")
    userProfile := fun _ => some (str "Bob")
    kickSucceeds := fun _ _ => false }

/-- A gateway environment in which profile lookups fail and kicks fail. -/
def envAllFail : GatewayEnv :=
  { memberProfile := fun _ _ => none
    userProfile := fun _ => none
    kickSucceeds := fun _ _ => false }

theorem contains_eq_true_iff (l : List Str) (x : Str) :
    l.contains x = true ↔ x ∈ l := by
  simp [List.contains, List.elem_iff]

theorem lookup_pendingDelete (p : List (Str × PendingEntry)) (uid : Str) :
    (pendingDelete p uid).lookup uid = none := by
  rw [List.lookup_eq_none_iff]
  intro q hq
  have h := List.of_mem_filter hq
  simp only [decide_eq_true_eq] at h
  exact bne_iff_ne.mpr (Ne.symm h)

theorem lookup_storeUpdate (store : SettingsStore) (gid : Str)
    (f : GroupSettings → GroupSettings) :
    (storeUpdate store gid f).lookup gid = (store.lookup gid).map f := by
  induction store with
  | nil => rfl
  | cons p t ih =>
    obtain ⟨k, v⟩ := p
    by_cases h : k = gid
    · subst h
      simp [storeUpdate, List.lookup_cons]
    · have hbe : (gid == k) = false := beq_eq_false_iff_ne.mpr (Ne.symm h)
      simpa [storeUpdate, List.lookup_cons, h, hbe] using ih

theorem mem_setInsert_self (l : List Str) (x : Str) : x ∈ setInsert l x := by
  unfold setInsert
  by_cases h : x ∈ l
  · simp [h]
  · simp [h]

/-- C10: a group-source message event whose message type is not text is
dropped immediately by handleMessage: no state change and no gateway
action, even when the sender is on blacklistUsers. -/
theorem nontext_message_noop (env : GatewayEnv) (st : BotState)
    (gid uid replyToken : Str) :
    handleMessage env st gid Message.nonText uid replyToken = (st, []) := rfl

/-- C2 counterexample: with a PendingVerification registered for user u1,
processing a member-left event for u1 leaves the entry in place, so the
claim that an explicit leave event destroys the entry is false at this
input. -/
theorem memberLeft_keeps_pending_cex :
    ((handleEvent envOk
        (BotState.mk [] [(str "u1", PendingEntry.mk (str "g1") 0)] 1)
        (Event.memberLeft (str "g1") [str "u1"])).1.pending.lookup (str "u1")
      = some (PendingEntry.mk (str "g1") 0)) := by rfl

/-- C2 amended: a member-left event is log-only and leaves the whole
state (in particular every PendingVerification entry) untouched; it is
the unfollow event that destroys the sender's PendingVerification entry,
leaving the settings store unchanged. -/
theorem memberLeft_logonly_unfollow_clears (env : GatewayEnv) (st : BotState)
    (gid uid : Str) (members : List Str) :
    (handleEvent env st (Event.memberLeft gid members)).1 = st ∧
    (handleEvent env st (Event.unfollow uid)).1.pending.lookup uid = none ∧
    (handleEvent env st (Event.unfollow uid)).1.store = st.store := by
  refine ⟨rfl, ?_, rfl⟩
  exact lookup_pendingDelete st.pending uid

/-- C4: a direct message from a user whose PendingVerification entry has
already been removed is a complete no-op, both inside
handlePasswordAttempt and through the event router: no reply, no kick,
no state change. -/
theorem passwordAttempt_after_removal_noop (env : GatewayEnv) (st : BotState)
    (uid replyToken : Str) (msg : Message)
    (h : st.pending.lookup uid = none) :
    handlePasswordAttempt env st uid msg replyToken = (st, []) ∧
    handleEvent env st (Event.message (Source.direct uid) msg replyToken) = (st, []) := by
  constructor
  · unfold handlePasswordAttempt
    rw [h]
  · have hred : handleEvent env st (Event.message (Source.direct uid) msg replyToken)
        = match st.pending.lookup uid with
          | some _ => handlePasswordAttempt env st uid msg replyToken
          | none => (st, []) := rfl
    rw [hred, h]

/-- C4 witness: in the state with no pending entries, a stray direct
message from u1 is a no-op. -/
theorem passwordAttempt_after_removal_noop_witness :
    handlePasswordAttempt envOk (BotState.mk [] [] 0) (str "u1")
        (Message.text (str "letmein") none) (str "rt")
      = (BotState.mk [] [] 0, []) :=
  (passwordAttempt_after_removal_noop envOk (BotState.mk [] [] 0)
    (str "u1") (str "rt") (Message.text (str "letmein") none) rfl).1

/-- C1: when the admin set of a group is empty, !setadmin from any
sender (mention or not) makes that sender the sole admin and replies
publicly; once the admin set is non-empty, !setadmin from a non-admin
is a silent no-op with no state change. -/
theorem setadmin_bootstrap_and_nonadmin_noop (st : BotState)
    (gid sender replyToken : Str) (mention : Option (List Str)) :
    ((getGroupSettings st.store gid).1.admins = [] →
      (getGroupSettings (handleSetAdmin st gid sender replyToken mention).1.store gid).1.admins
          = [sender] ∧
      (handleSetAdmin st gid sender replyToken mention).1.pending = st.pending ∧
      (handleSetAdmin st gid sender replyToken mention).2
          = [Act.reply replyToken (str "You are now the first admin.")]) ∧
    ((getGroupSettings st.store gid).1.admins ≠ [] →
      sender ∉ (getGroupSettings st.store gid).1.admins →
      handleSetAdmin st gid sender replyToken mention = (st, [])) := by
  cases hl : st.store.lookup gid with
  | none =>
    constructor
    · intro _
      simp [handleSetAdmin, getGroupSettings, hl, addAdmin, setInsert,
            lookup_storeUpdate, defaultSettings]
    · intro hne _
      exact absurd (by simp [getGroupSettings, hl, defaultSettings]) hne
  | some s =>
    constructor
    · intro h0
      have h0' : s.admins = [] := by simpa [getGroupSettings, hl] using h0
      simp [handleSetAdmin, getGroupSettings, hl, h0', addAdmin, setInsert,
            lookup_storeUpdate]
    · intro hne hmem
      have hs : s.admins ≠ [] := by simpa [getGroupSettings, hl] using hne
      have hmem' : sender ∉ s.admins := by simpa [getGroupSettings, hl] using hmem
      have hc : s.admins.contains sender = false := by
        rcases hcon : s.admins.contains sender with _ | _
        · rfl
        · exact absurd ((contains_eq_true_iff _ _).mp hcon) hmem'
      simp [handleSetAdmin, getGroupSettings, hl, hs, isAdmin, hc]
      exact fun hin => absurd hin hmem'

/-- C1 witness: on a fresh group, !setadmin makes u1 the sole admin with
the public confirmation; afterwards !setadmin from v1 is a silent no-op. -/
theorem setadmin_bootstrap_and_nonadmin_noop_witness :
    ((getGroupSettings
        (handleSetAdmin (BotState.mk [] [] 0) (str "g1") (str "u1") (str "rt") none).1.store
        (str "g1")).1.admins = [str "u1"] ∧
     (handleSetAdmin (BotState.mk [] [] 0) (str "g1") (str "u1") (str "rt") none).1.pending = [] ∧
     (handleSetAdmin (BotState.mk [] [] 0) (str "g1") (str "u1") (str "rt") none).2
        = [Act.reply (str "rt") (str "You are now the first admin.")]) ∧
    handleSetAdmin
        (BotState.mk [(str "g1", { defaultSettings with admins := [str "u1"] })] [] 0)
        (str "g1") (str "v1") (str "rt2") none
      = (BotState.mk [(str "g1", { defaultSettings with admins := [str "u1"] })] [] 0, []) := by
  constructor
  · exact (setadmin_bootstrap_and_nonadmin_noop (BotState.mk [] [] 0)
      (str "g1") (str "u1") (str "rt") none).1 rfl
  · exact (setadmin_bootstrap_and_nonadmin_noop
      (BotState.mk [(str "g1", { defaultSettings with admins := [str "u1"] })] [] 0)
      (str "g1") (str "v1") (str "rt2") none).2 (by decide) (by decide)

/-- C9: a group text message whose sender is on blacklistUsers leads to
an immediate kick and nothing else: the state is unchanged and the only
gateway activity is the kick attempt, whatever the text (commands
included) and whatever the admin set (the check precedes both the
dispatch and the admin gate). -/
theorem blacklisted_sender_kicked_first (env : GatewayEnv) (st : BotState)
    (gid uid replyToken body : Str) (mention : Option (List Str))
    (h : uid ∈ (getGroupSettings st.store gid).1.blacklist_users) :
    handleMessage env st gid (Message.text body mention) uid replyToken
      = (st, kickUser env gid uid (str "User is on the blacklist.")) ∧
    Act.kickAttempt gid uid (str "User is on the blacklist.")
      ∈ (handleMessage env st gid (Message.text body mention) uid replyToken).2 := by
  cases hl : st.store.lookup gid with
  | none =>
    exfalso
    simp [getGroupSettings, hl, defaultSettings] at h
  | some s =>
    have hmem : uid ∈ s.blacklist_users := by simpa [getGroupSettings, hl] using h
    have hc : s.blacklist_users.contains uid = true := (contains_eq_true_iff _ _).mpr hmem
    have hred : handleMessage env st gid (Message.text body mention) uid replyToken
        = (st, kickUser env gid uid (str "User is on the blacklist.")) := by
      simp [handleMessage, isUserBlacklisted, getGroupSettings, hl, hc]
      exact fun hno => absurd hmem hno
    refine ⟨hred, ?_⟩
    rw [hred]
    unfold kickUser
    cases env.kickSucceeds gid uid <;> simp

/-- C9 witness: an admin who is also on blacklistUsers sending the
!status command is kicked with the blacklist reason and nothing else
happens. -/
theorem blacklisted_sender_kicked_first_witness :
    handleMessage envOk
        (BotState.mk
          [(str "g1", { defaultSettings with admins := [str "u1"], blacklist_users := [str "u1"] })] [] 0)
        (str "g1") (Message.text (str "!status") none) (str "u1") (str "rt")
      = (BotState.mk
          [(str "g1", { defaultSettings with admins := [str "u1"], blacklist_users := [str "u1"] })] [] 0,
         kickUser envOk (str "g1") (str "u1") (str "User is on the blacklist.")) :=
  (blacklisted_sender_kicked_first envOk
    (BotState.mk
      [(str "g1", { defaultSettings with admins := [str "u1"], blacklist_users := [str "u1"] })] [] 0)
    (str "g1") (str "u1") (str "rt") (str "!status") none (by decide)).1

/-- C3 counterexample: with the profile lookup succeeding but the kick
call failing, !blacklistuser on a non-admin target stores the user yet
replies with the full-success text, not the degraded-outcome text — so
the claim that every kick failure yields the degraded reply is false at
this input. -/
theorem blacklistUser_kick_failure_success_reply_cex :
    envKickFail.kickSucceeds (str "g1") (str "v1") = false ∧
    (str "v1") ∈ (getGroupSettings
        (handleBlacklistUser envKickFail (BotState.mk [(str "g1", defaultSettings)] [] 0)
          (str "g1") (str "rt") (some [str "v1"])).1.store (str "g1")).1.blacklist_users ∧
    Act.reply (str "rt") (str "Bob has been blacklisted and removed.")
      ∈ (handleBlacklistUser envKickFail (BotState.mk [(str "g1", defaultSettings)] [] 0)
          (str "g1") (str "rt") (some [str "v1"])).2 ∧
    Act.reply (str "rt")
        (str "User ID added to blacklist, but could not be removed from group (may have already left).")
      ∉ (handleBlacklistUser envKickFail (BotState.mk [(str "g1", defaultSettings)] [] 0)
          (str "g1") (str "rt") (some [str "v1"])).2 := by
  refine ⟨rfl, ?_, ?_, ?_⟩ <;> decide

/-- C3 amended: for !blacklistuser on a mentioned non-admin target, the
blacklist-store mutation always persists, whatever the outcome of the
profile lookup and the kick; the degraded-outcome reply (distinct from
the full-success reply) is produced exactly when the group-member
profile lookup throws (e.g. the target already left), whereas a failure
of the kick call alone is swallowed by kickUser and still yields the
full-success reply. -/
theorem blacklistUser_mutation_persists (env : GatewayEnv) (st : BotState)
    (gid replyToken target : Str) (mention : Option (List Str))
    (hm : firstMentionee mention = some target)
    (hadm : target ∉ (getGroupSettings st.store gid).1.admins) :
    target ∈ (getGroupSettings
        (handleBlacklistUser env st gid replyToken mention).1.store gid).1.blacklist_users ∧
    (env.memberProfile gid target = none →
      (handleBlacklistUser env st gid replyToken mention).2
        = [Act.reply replyToken
            (str "User ID added to blacklist, but could not be removed from group (may have already left).")]) ∧
    (∀ name, env.memberProfile gid target = some name →
      (handleBlacklistUser env st gid replyToken mention).2
        = kickUser env gid target (str "User has been blacklisted.")
            ++ [Act.reply replyToken (name ++ str " has been blacklisted and removed.")]) := by
  cases hl : st.store.lookup gid with
  | none =>
    have hred : handleBlacklistUser env st gid replyToken mention
        = ({ st with store := addUserToBlacklist ((gid, defaultSettings) :: st.store) gid target },
           match env.memberProfile gid target with
           | none => [Act.reply replyToken
               (str "User ID added to blacklist, but could not be removed from group (may have already left).")]
           | some name => kickUser env gid target (str "User has been blacklisted.")
               ++ [Act.reply replyToken (name ++ str " has been blacklisted and removed.")]) := by
      simp [handleBlacklistUser, hm, isAdmin, getGroupSettings, hl, defaultSettings]
      cases env.memberProfile gid target <;> simp
    refine ⟨?_, ?_, ?_⟩
    · rw [hred]
      simp [addUserToBlacklist, getGroupSettings, lookup_storeUpdate, setInsert, defaultSettings]
    · intro hp
      rw [hred, hp]
    · intro name hp
      rw [hred, hp]
  | some s =>
    have hadm' : target ∉ s.admins := by simpa [getGroupSettings, hl] using hadm
    have hc : s.admins.contains target = false := by
      rcases hcon : s.admins.contains target with _ | _
      · rfl
      · exact absurd ((contains_eq_true_iff _ _).mp hcon) hadm'
    have hred : handleBlacklistUser env st gid replyToken mention
        = ({ st with store := addUserToBlacklist st.store gid target },
           match env.memberProfile gid target with
           | none => [Act.reply replyToken
               (str "User ID added to blacklist, but could not be removed from group (may have already left).")]
           | some name => kickUser env gid target (str "User has been blacklisted.")
               ++ [Act.reply replyToken (name ++ str " has been blacklisted and removed.")]) := by
      simp [handleBlacklistUser, hm, isAdmin, getGroupSettings, hl, hadm']
      cases env.memberProfile gid target <;> simp
    refine ⟨?_, ?_, ?_⟩
    · rw [hred]
      simp [addUserToBlacklist, getGroupSettings, hl, lookup_storeUpdate]
      exact mem_setInsert_self s.blacklist_users target
    · intro hp
      rw [hred, hp]
    · intro name hp
      rw [hred, hp]

/-- C3 witness: with the profile lookup failing (target already left),
!blacklistuser still stores v1 and sends the degraded reply. -/
theorem blacklistUser_mutation_persists_witness :
    (str "v1") ∈ (getGroupSettings
        (handleBlacklistUser envAllFail (BotState.mk [(str "g1", defaultSettings)] [] 0)
          (str "g1") (str "rt") (some [str "v1"])).1.store (str "g1")).1.blacklist_users ∧
    (handleBlacklistUser envAllFail (BotState.mk [(str "g1", defaultSettings)] [] 0)
        (str "g1") (str "rt") (some [str "v1"])).2
      = [Act.reply (str "rt")
          (str "User ID added to blacklist, but could not be removed from group (may have already left).")] := by
  have h := blacklistUser_mutation_persists envAllFail
    (BotState.mk [(str "g1", defaultSettings)] [] 0)
    (str "g1") (str "rt") (str "v1") (some [str "v1"]) rfl (by decide)
  exact ⟨h.1, h.2.1 rfl⟩

theorem dropWhile_isWS_eq_self (l : Str)
    (h : ∀ c, l.head? = some c → isWS c = false) :
    l.dropWhile isWS = l := by
  cases l with
  | nil => rfl
  | cons c t => simp [List.dropWhile_cons, h c rfl]

theorem trim_of_ends (l : Str)
    (h1 : ∀ c, l.head? = some c → isWS c = false)
    (h2 : ∀ c, l.getLast? = some c → isWS c = false) :
    trim l = l := by
  unfold trim
  rw [dropWhile_isWS_eq_self l h1]
  rw [dropWhile_isWS_eq_self l.reverse
    (fun c hc => h2 c (by rwa [List.head?_reverse] at hc))]
  exact List.reverse_reverse l

theorem head?_mem_left (xs ys : Str) (ha : xs ≠ []) (c : Char)
    (hc : (xs ++ ys).head? = some c) : c ∈ xs := by
  cases xs with
  | nil => exact absurd rfl ha
  | cons x t =>
    simp at hc
    exact hc ▸ List.mem_cons_self x t

theorem getLast?_mem_right (xs ys : Str) (hb : ys ≠ []) (c : Char)
    (hc : (xs ++ ys).getLast? = some c) : c ∈ ys := by
  rcases hgl : ys.getLast? with _ | x
  · exact absurd (List.getLast?_eq_none_iff.mp hgl) hb
  · rw [List.getLast?_append, hgl] at hc
    simp at hc
    exact hc ▸ List.mem_of_getLast?_eq_some hgl

theorem splitSp_no_space (l : Str) (h : ' ' ∉ l) : splitSp l = [l] := by
  induction l with
  | nil => rfl
  | cons c t ih =>
    have hc : ¬ c = ' ' := fun e => h (e ▸ List.mem_cons_self c t)
    have ht : ' ' ∉ t := fun m => h (List.mem_cons_of_mem c m)
    simp [splitSp, hc, ih ht]

theorem splitSp_append_space (a ys : Str) (h : ' ' ∉ a) :
    splitSp (a ++ ' ' :: ys) = a :: splitSp ys := by
  induction a with
  | nil => simp [splitSp]
  | cons c t ih =>
    have hc : ¬ c = ' ' := fun e => h (e ▸ List.mem_cons_self c t)
    have ht : ' ' ∉ t := fun m => h (List.mem_cons_of_mem c m)
    simp [splitSp, hc, ih ht]

/-- C5 counterexample: on the text with a doubled space between the
command token and its argument, the dispatcher parse produces an
empty-string argument, differing from the whitespace-token parse of the
claim; so the claim that runs of whitespace never produce empty-string
arguments is false at this input. The last conjunct shows the empty
word even reaching the blacklist store when an admin runs the command. -/
theorem parse_double_space_empty_arg_cex :
    parsedArgs (str "!addblacklist  foo") = [[], str "foo"] ∧
    [] ∈ parsedArgs (str "!addblacklist  foo") ∧
    specTokens (str "!addblacklist  foo") = [str "!addblacklist", str "foo"] ∧
    (getGroupSettings
        (handleMessage envOk
          (BotState.mk [(str "g1", { defaultSettings with admins := [str "u1"] })] [] 0)
          (str "g1") (Message.text (str "!addblacklist  foo") none) (str "u1") (str "rt")).1.store
        (str "g1")).1.blacklist_words = [[], str "foo"] := by
  refine ⟨?_, ?_, ?_, ?_⟩ <;> decide

/-- C5 amended: the dispatcher trims the text and splits it on single
space characters: for space-free nonempty tokens joined by one space
the command is the first token lowercased and the arguments the
remaining tokens, but joining with a run of two spaces produces an
empty-string argument. -/
theorem parse_single_space_semantics (a b : Str)
    (ha : a ≠ []) (hb : b ≠ [])
    (hwa : ∀ c ∈ a, isWS c = false) (hwb : ∀ c ∈ b, isWS c = false) :
    (parsedCommand (a ++ ' ' :: b) = toLowerCase a ∧
     parsedArgs (a ++ ' ' :: b) = [b]) ∧
    parsedArgs (a ++ ' ' :: ' ' :: b) = [[], b] := by
  have hsp : isWS ' ' = true := by decide
  have hsa : ' ' ∉ a := fun m => by
    have h := hwa ' ' m
    rw [hsp] at h
    cases h
  have hsb : ' ' ∉ b := fun m => by
    have h := hwb ' ' m
    rw [hsp] at h
    cases h
  have htrim1 : trim (a ++ ' ' :: b) = a ++ ' ' :: b := by
    apply trim_of_ends
    · intro c hc
      exact hwa c (head?_mem_left a (' ' :: b) ha c hc)
    · intro c hc
      have hc' : ((a ++ [' ']) ++ b).getLast? = some c := by
        simpa [List.append_assoc] using hc
      exact hwb c (getLast?_mem_right (a ++ [' ']) b hb c hc')
  have htrim2 : trim (a ++ ' ' :: ' ' :: b) = a ++ ' ' :: ' ' :: b := by
    apply trim_of_ends
    · intro c hc
      exact hwa c (head?_mem_left a (' ' :: ' ' :: b) ha c hc)
    · intro c hc
      have hc' : ((a ++ [' ', ' ']) ++ b).getLast? = some c := by
        simpa [List.append_assoc] using hc
      exact hwb c (getLast?_mem_right (a ++ [' ', ' ']) b hb c hc')
  have hsplit1 : splitSp (a ++ ' ' :: b) = [a, b] := by
    rw [splitSp_append_space a b hsa, splitSp_no_space b hsb]
  have hsplit2 : splitSp (a ++ ' ' :: ' ' :: b) = [a, [], b] := by
    rw [splitSp_append_space a (' ' :: b) hsa]
    simp [splitSp, splitSp_no_space b hsb]
  refine ⟨⟨?_, ?_⟩, ?_⟩
  · unfold parsedCommand
    rw [htrim1, hsplit1]
    rfl
  · unfold parsedArgs
    rw [htrim1, hsplit1]
    rfl
  · unfold parsedArgs
    rw [htrim2, hsplit2]
    rfl

/-- C5 witness: the amended parse behaviour evaluated on the concrete
tokens of the counterexample. -/
theorem parse_single_space_semantics_witness :
    (parsedCommand (str "!addblacklist" ++ ' ' :: str "foo")
        = toLowerCase (str "!addblacklist") ∧
     parsedArgs (str "!addblacklist" ++ ' ' :: str "foo") = [str "foo"]) ∧
    parsedArgs (str "!addblacklist" ++ ' ' :: ' ' :: str "foo") = [[], str "foo"] :=
  parse_single_space_semantics (str "!addblacklist") (str "foo")
    (by decide) (by decide) (by decide) (by decide)

theorem intercalate_singleton (sep x : Str) : List.intercalate sep [x] = x := by
  simp [List.intercalate]

/-- C6: when the separator-joined listing of blacklist words exceeds
MAX_REPLY_LENGTH = 4800 characters, the words reply carries the listing
truncated to the first 4800 characters (a length of at most 4800) with
the ellipsis marker appended; independently, the same holds of the
rendered blacklist-user listing. -/
theorem showBlacklist_truncation (env : GatewayEnv) (st : BotState)
    (gid replyToken replyToken2 : Str) :
    ((List.intercalate (str ", ")
        (getGroupSettings st.store gid).1.blacklist_words).length > MAX_REPLY_LENGTH →
      (handleShowBlacklistWords st gid replyToken).2
        = [Act.reply replyToken
            (str "--- Blacklisted Words ("
              ++ natStr (getGroupSettings st.store gid).1.blacklist_words.length
              ++ str ") ---" ++ [Char.ofNat 10]
              ++ ((List.intercalate (str ", ")
                    (getGroupSettings st.store gid).1.blacklist_words).take MAX_REPLY_LENGTH
                  ++ str "..."))] ∧
      ((List.intercalate (str ", ")
          (getGroupSettings st.store gid).1.blacklist_words).take MAX_REPLY_LENGTH).length
        ≤ MAX_REPLY_LENGTH) ∧
    ((List.intercalate (str ", ")
        ((getGroupSettings st.store gid).1.blacklist_users.map
          (renderBlacklistUserName env))).length > MAX_REPLY_LENGTH →
      (handleShowBlacklistUsers env st gid replyToken2).2
        = [Act.reply replyToken2
            (str "--- Blacklisted Users ("
              ++ natStr (getGroupSettings st.store gid).1.blacklist_users.length
              ++ str ") ---" ++ [Char.ofNat 10]
              ++ ((List.intercalate (str ", ")
                    ((getGroupSettings st.store gid).1.blacklist_users.map
                      (renderBlacklistUserName env))).take MAX_REPLY_LENGTH
                  ++ str "..."))] ∧
      ((List.intercalate (str ", ")
          ((getGroupSettings st.store gid).1.blacklist_users.map
            (renderBlacklistUserName env))).take MAX_REPLY_LENGTH).length
        ≤ MAX_REPLY_LENGTH) := by
  constructor
  · intro hw
    cases hl : st.store.lookup gid with
    | none =>
      exfalso
      rw [show (getGroupSettings st.store gid).1 = defaultSettings by
        simp [getGroupSettings, hl]] at hw
      simp [defaultSettings, List.intercalate, MAX_REPLY_LENGTH] at hw
    | some s =>
      have hset : (getGroupSettings st.store gid).1 = s := by simp [getGroupSettings, hl]
      rw [hset] at hw ⊢
      have hwne : s.blacklist_words ≠ [] := by
        intro e
        rw [e] at hw
        simp [List.intercalate, MAX_REPLY_LENGTH] at hw
      have hwpos : 0 < s.blacklist_words.length := List.length_pos.mpr hwne
      refine ⟨?_, ?_⟩
      · simp [handleShowBlacklistWords, getGroupSettings, hl, hwpos, hw]
      · rw [List.length_take]
        exact min_le_left _ _
  · intro hu
    cases hl : st.store.lookup gid with
    | none =>
      exfalso
      rw [show (getGroupSettings st.store gid).1 = defaultSettings by
        simp [getGroupSettings, hl]] at hu
      simp [defaultSettings, List.intercalate, MAX_REPLY_LENGTH] at hu
    | some s =>
      have hset : (getGroupSettings st.store gid).1 = s := by simp [getGroupSettings, hl]
      rw [hset] at hu ⊢
      have hune : s.blacklist_users ≠ [] := by
        intro e
        rw [e] at hu
        simp [List.intercalate, MAX_REPLY_LENGTH] at hu
      have hupos : 0 < s.blacklist_users.length := List.length_pos.mpr hune
      refine ⟨?_, ?_⟩
      · simp [handleShowBlacklistUsers, getGroupSettings, hl, hupos, hu]
      · rw [List.length_take]
        exact min_le_left _ _

/-- A gateway environment whose profile lookups return a 4801-character
display name, long enough to force listing truncation. -/
def envLong : GatewayEnv :=
  { memberProfile := fun _ _ => some (List.replicate 4801 'b')
    userProfile := fun _ => some (List.replicate 4801 'b')
    kickSucceeds := fun _ _ => true }

/-- C6 witness: a single 4801-character blacklist word and a single
blacklisted user whose resolved name has 4801 characters each exceed
the limit, so each listing is truncated with the ellipsis marker. -/
theorem showBlacklist_truncation_witness :
    ((handleShowBlacklistWords
        (BotState.mk
          [(str "g1", { defaultSettings with
              blacklist_words := [List.replicate 4801 'a']
              blacklist_users := [str "u1"] })] [] 0)
        (str "g1") (str "rt")).2
      = [Act.reply (str "rt")
          (str "--- Blacklisted Words ("
            ++ natStr (getGroupSettings
                (BotState.mk
                  [(str "g1", { defaultSettings with
                      blacklist_words := [List.replicate 4801 'a']
                      blacklist_users := [str "u1"] })] [] 0).store (str "g1")).1.blacklist_words.length
            ++ str ") ---" ++ [Char.ofNat 10]
            ++ ((List.intercalate (str ", ")
                  (getGroupSettings
                    (BotState.mk
                      [(str "g1", { defaultSettings with
                          blacklist_words := [List.replicate 4801 'a']
                          blacklist_users := [str "u1"] })] [] 0).store (str "g1")).1.blacklist_words).take
                    MAX_REPLY_LENGTH
                ++ str "..."))] ∧
     ((List.intercalate (str ", ")
        (getGroupSettings
          (BotState.mk
            [(str "g1", { defaultSettings with
                blacklist_words := [List.replicate 4801 'a']
                blacklist_users := [str "u1"] })] [] 0).store (str "g1")).1.blacklist_words).take
          MAX_REPLY_LENGTH).length ≤ MAX_REPLY_LENGTH) ∧
    ((handleShowBlacklistUsers envLong
        (BotState.mk
          [(str "g1", { defaultSettings with
              blacklist_words := [List.replicate 4801 'a']
              blacklist_users := [str "u1"] })] [] 0)
        (str "g1") (str "rt2")).2
      = [Act.reply (str "rt2")
          (str "--- Blacklisted Users ("
            ++ natStr (getGroupSettings
                (BotState.mk
                  [(str "g1", { defaultSettings with
                      blacklist_words := [List.replicate 4801 'a']
                      blacklist_users := [str "u1"] })] [] 0).store (str "g1")).1.blacklist_users.length
            ++ str ") ---" ++ [Char.ofNat 10]
            ++ ((List.intercalate (str ", ")
                  ((getGroupSettings
                    (BotState.mk
                      [(str "g1", { defaultSettings with
                          blacklist_words := [List.replicate 4801 'a']
                          blacklist_users := [str "u1"] })] [] 0).store (str "g1")).1.blacklist_users.map
                    (renderBlacklistUserName envLong))).take MAX_REPLY_LENGTH
                ++ str "..."))] ∧
     ((List.intercalate (str ", ")
        ((getGroupSettings
          (BotState.mk
            [(str "g1", { defaultSettings with
                blacklist_words := [List.replicate 4801 'a']
                blacklist_users := [str "u1"] })] [] 0).store (str "g1")).1.blacklist_users.map
          (renderBlacklistUserName envLong))).take MAX_REPLY_LENGTH).length
       ≤ MAX_REPLY_LENGTH) := by
  have h := showBlacklist_truncation envLong
    (BotState.mk
      [(str "g1", { defaultSettings with
          blacklist_words := [List.replicate 4801 'a']
          blacklist_users := [str "u1"] })] [] 0)
    (str "g1") (str "rt") (str "rt2")
  refine ⟨h.1 ?_, h.2 ?_⟩
  · rw [show (getGroupSettings
        (BotState.mk
          [(str "g1", { defaultSettings with
              blacklist_words := [List.replicate 4801 'a']
              blacklist_users := [str "u1"] })] [] 0).store (str "g1")).1.blacklist_words
        = [List.replicate 4801 'a'] from rfl]
    rw [intercalate_singleton, List.length_replicate]
    norm_num [MAX_REPLY_LENGTH]
  · rw [show ((getGroupSettings
        (BotState.mk
          [(str "g1", { defaultSettings with
              blacklist_words := [List.replicate 4801 'a']
              blacklist_users := [str "u1"] })] [] 0).store (str "g1")).1.blacklist_users.map
          (renderBlacklistUserName envLong))
        = [List.replicate 4801 'b'] from rfl]
    rw [intercalate_singleton, List.length_replicate]
    norm_num [MAX_REPLY_LENGTH]

theorem contains_eq_false_of_not_mem (l : List Str) (x : Str) (h : x ∉ l) :
    l.contains x = false := by
  rcases hc : l.contains x with _ | _
  · rfl
  · exact absurd ((contains_eq_true_iff l x).mp hc) h

/-- C7: word-blacklist membership is case-insensitive end to end: a word
added through the !addblacklist path is stored lowercased, and a
non-command group text from a non-admin sender whose lowercased text
contains the lowercased word triggers a kick; when the sender is not on
the user blacklist, the kick reason names the matched stored word. -/
theorem blacklist_word_case_insensitive (store : SettingsStore)
    (env : GatewayEnv) (st : BotState)
    (gid uid replyToken W body : Str) (mention : Option (List Str)) :
    toLowerCase W ∈
      (getGroupSettings (addBlacklistWords store gid [W]) gid).1.blacklist_words ∧
    (toLowerCase W ∈ (getGroupSettings st.store gid).1.blacklist_words →
     uid ∉ (getGroupSettings st.store gid).1.admins →
     startsWithChar '!' (parsedCommand body) = false →
     includes (toLowerCase (trim body)) (toLowerCase W) = true →
     (∃ r, Act.kickAttempt gid uid r
        ∈ (handleMessage env st gid (Message.text body mention) uid replyToken).2) ∧
     (uid ∉ (getGroupSettings st.store gid).1.blacklist_users →
      ∃ w, w ∈ (getGroupSettings st.store gid).1.blacklist_words ∧
        includes (toLowerCase (trim body)) w = true ∧
        Act.kickAttempt gid uid
            (str "Used blacklisted word: " ++ [Char.ofNat 39] ++ w ++ [Char.ofNat 39])
          ∈ (handleMessage env st gid (Message.text body mention) uid replyToken).2)) := by
  constructor
  · cases hl : store.lookup gid with
    | none =>
      simp [addBlacklistWords, getGroupSettings, hl, lookup_storeUpdate,
            setInsert, defaultSettings]
    | some s =>
      simp [addBlacklistWords, getGroupSettings, hl, lookup_storeUpdate]
      exact mem_setInsert_self s.blacklist_words (toLowerCase W)
  · intro hmem hadm hcmd hinc
    cases hl : st.store.lookup gid with
    | none =>
      exfalso
      rw [show (getGroupSettings st.store gid).1 = defaultSettings by
        simp [getGroupSettings, hl]] at hmem
      simp [defaultSettings] at hmem
    | some s =>
      have hset : (getGroupSettings st.store gid).1 = s := by simp [getGroupSettings, hl]
      rw [hset] at hmem hadm ⊢
      by_cases hbl : uid ∈ s.blacklist_users
      · have hc : s.blacklist_users.contains uid = true := (contains_eq_true_iff _ _).mpr hbl
        have hred : handleMessage env st gid (Message.text body mention) uid replyToken
            = (st, kickUser env gid uid (str "User is on the blacklist.")) := by
          simp [handleMessage, isUserBlacklisted, getGroupSettings, hl, hc]
          exact fun hno => absurd hbl hno
        constructor
        · refine ⟨str "User is on the blacklist.", ?_⟩
          rw [hred]
          unfold kickUser
          cases env.kickSucceeds gid uid <;> simp
        · intro hno
          exact absurd hbl hno
      · have hc : s.blacklist_users.contains uid = false :=
          contains_eq_false_of_not_mem _ _ hbl
        have hca : s.admins.contains uid = false :=
          contains_eq_false_of_not_mem _ _ hadm
        have hfs : (s.blacklist_words.find?
            (fun w => includes (toLowerCase (trim body)) w)).isSome :=
          List.find?_isSome.mpr ⟨toLowerCase W, hmem, hinc⟩
        obtain ⟨w, hfind⟩ := Option.isSome_iff_exists.mp hfs
        have hpw : includes (toLowerCase (trim body)) w = true := List.find?_some hfind
        have hmw : w ∈ s.blacklist_words := List.mem_of_find?_eq_some hfind
        have hred : handleMessage env st gid (Message.text body mention) uid replyToken
            = (st, kickUser env gid uid
                (str "Used blacklisted word: " ++ [Char.ofNat 39] ++ w ++ [Char.ofNat 39])) := by
          simp [handleMessage, isUserBlacklisted, getGroupSettings, hl, hbl, hcmd,
                checkMessageForBlacklist, isAdmin, hadm, hfind]
        have hkick : Act.kickAttempt gid uid
            (str "Used blacklisted word: " ++ [Char.ofNat 39] ++ w ++ [Char.ofNat 39])
            ∈ (handleMessage env st gid (Message.text body mention) uid replyToken).2 := by
          rw [hred]
          unfold kickUser
          cases env.kickSucceeds gid uid <;> simp
        exact ⟨⟨_, hkick⟩, fun _ => ⟨w, hmw, hpw, hkick⟩⟩

/-- C7 witness: adding the word Spam stores spam, and the non-admin
message containing SPAM is kicked with the reason naming spam. -/
theorem blacklist_word_case_insensitive_witness :
    toLowerCase (str "Spam") ∈
      (getGroupSettings (addBlacklistWords [(str "g1", defaultSettings)] (str "g1") [str "Spam"])
        (str "g1")).1.blacklist_words ∧
    (∃ r, Act.kickAttempt (str "g1") (str "u1") r
      ∈ (handleMessage envOk
          (BotState.mk (addBlacklistWords [(str "g1", defaultSettings)] (str "g1") [str "Spam"]) [] 0)
          (str "g1") (Message.text (str "this is SPAM today") none) (str "u1") (str "rt")).2) := by
  have h := blacklist_word_case_insensitive
    [(str "g1", defaultSettings)] envOk
    (BotState.mk (addBlacklistWords [(str "g1", defaultSettings)] (str "g1") [str "Spam"]) [] 0)
    (str "g1") (str "u1") (str "rt") (str "Spam") (str "this is SPAM today") none
  exact ⟨h.1, (h.2 (by decide) (by decide) (by decide) (by decide)).1⟩

/-- C8: !setpassword X (with X no case-variant of off) followed by
!setpassword off leaves the password null, and a member-joined event for
a non-blacklisted member afterwards registers no PendingVerification and
sends no prompt at all. -/
theorem setpassword_roundtrip_admits (env : GatewayEnv) (st : BotState)
    (gid rt1 rt2 X m : Str) (s0 : GroupSettings)
    (hrow : st.store.lookup gid = some s0)
    (hX : toLowerCase X ≠ str "off")
    (hm : m ∉ s0.blacklist_users) :
    (getGroupSettings (handleSetPassword st gid rt1 [X]).1.store gid).1.password = some X ∧
    (getGroupSettings
        (handleSetPassword (handleSetPassword st gid rt1 [X]).1 gid rt2 [str "off"]).1.store
        gid).1.password = none ∧
    handleMemberJoined env
        (handleSetPassword (handleSetPassword st gid rt1 [X]).1 gid rt2 [str "off"]).1 gid [m]
      = ((handleSetPassword (handleSetPassword st gid rt1 [X]).1 gid rt2 [str "off"]).1, []) := by
  have hoff : toLowerCase (str "off") = str "off" := by decide
  have h1 : (handleSetPassword st gid rt1 [X]).1
      = { st with store := setPassword st.store gid (some X) } := by
    simp [handleSetPassword, hX]
  have hl1 : (setPassword st.store gid (some X)).lookup gid
      = some { s0 with password := some X } := by
    simp [setPassword, lookup_storeUpdate, hrow]
  have h2 : (handleSetPassword (handleSetPassword st gid rt1 [X]).1 gid rt2 [str "off"]).1
      = { st with store := setPassword (setPassword st.store gid (some X)) gid none } := by
    rw [h1]
    simp [handleSetPassword, hoff]
  have hl2 : (setPassword (setPassword st.store gid (some X)) gid none).lookup gid
      = some { s0 with password := none } := by
    simp [setPassword, lookup_storeUpdate, hrow]
  have hcm : ({ s0 with password := none } : GroupSettings).blacklist_users.contains m = false :=
    contains_eq_false_of_not_mem _ _ hm
  refine ⟨?_, ?_, ?_⟩
  · rw [h1]
    simp [getGroupSettings, hl1]
  · rw [h2]
    simp [getGroupSettings, hl2]
  · rw [h2]
    simp [handleMemberJoined, getGroupSettings, hl2, isUserBlacklisted, hcm]
    exact fun hin => absurd hin hm

/-- C8 witness: on a fresh group row, setting the password to secret,
switching it off, and then processing a join for v1 yields no pending
verification and no gateway action. -/
theorem setpassword_roundtrip_admits_witness :
    (getGroupSettings
        (handleSetPassword
          (handleSetPassword (BotState.mk [(str "g1", defaultSettings)] [] 0)
            (str "g1") (str "rt1") [str "secret"]).1
          (str "g1") (str "rt2") [str "off"]).1.store (str "g1")).1.password = none ∧
    handleMemberJoined envOk
        (handleSetPassword
          (handleSetPassword (BotState.mk [(str "g1", defaultSettings)] [] 0)
            (str "g1") (str "rt1") [str "secret"]).1
          (str "g1") (str "rt2") [str "off"]).1 (str "g1") [str "v1"]
      = ((handleSetPassword
          (handleSetPassword (BotState.mk [(str "g1", defaultSettings)] [] 0)
            (str "g1") (str "rt1") [str "secret"]).1
          (str "g1") (str "rt2") [str "off"]).1, []) := by
  have h := setpassword_roundtrip_admits envOk
    (BotState.mk [(str "g1", defaultSettings)] [] 0)
    (str "g1") (str "rt1") (str "rt2") (str "secret") (str "v1") defaultSettings
    (by decide) (by decide) (by decide)
  exact ⟨h.2.1, h.2.2⟩
